import Mathlib

/-!
Verification of `manage_dataset.py` (lerobot_dataset_tools).

The script is a thin CLI over a remote hub: every operation is a linear
sequence of prints, one interactive confirmation at most, and calls into the
hub SDK. We embed each operation as a pure function from its inputs and an
explicit environment (the file listing the hub returns, the operator's
confirmation response, per-call failure oracles) to the list of observable
events it performs, in order: prompts, printed lines, and service calls.

Python string primitives (`split`, `in`, `endswith`, `lower`, `int`,
zero-padded formatting) are re-implemented on `List Char` by structural
recursion so that every definition evaluates inside the kernel; the core
`String` library functions are avoided only because their well-founded
recursions do not reduce definitionally.
-/

/-- Python `str.lower` restricted to its ASCII action (every string the tool
compares against is ASCII). Source: `confirm.lower()`. -/
def pyLower (s : String) : String := ⟨s.data.map Char.toLower⟩

/-- Does `needle` occur at the head of `hay`? Helper for the embeddings of
Python `in` and `str.endswith`. -/
def startsWithChars : List Char → List Char → Bool
  | _, [] => true
  | [], _ :: _ => false
  | a :: hay, b :: needle => a == b && startsWithChars hay needle

/-- Does `needle` occur anywhere in `hay`? -/
def containsChars : List Char → List Char → Bool
  | [], needle => needle.isEmpty
  | a :: hay, needle => startsWithChars (a :: hay) needle || containsChars hay needle

/-- Python `pat in s` (substring containment). -/
def strContains (s pat : String) : Bool := containsChars s.data pat.data

/-- Python `s.endswith(pat)`. -/
def strEndsWith (s pat : String) : Bool := startsWithChars s.data.reverse pat.data.reverse

/-- Python `s.split(sep)` for a non-empty separator, fuelled so the recursion
is structural: `fuel` starts at `hay.length + 1`, and every step consumes at
least one character of `hay`. `cur` holds the current segment reversed. -/
def splitOnFuel (needle : List Char) : Nat → List Char → List Char → List (List Char)
  | 0, hay, cur => [cur.reverse ++ hay]
  | _ + 1, [], cur => [cur.reverse]
  | fuel + 1, a :: hay, cur =>
    if startsWithChars (a :: hay) needle then
      cur.reverse :: splitOnFuel needle fuel (List.drop needle.length (a :: hay)) []
    else
      splitOnFuel needle fuel hay (a :: cur)

/-- Python `s.split(sep)`; the tool only ever splits on the non-empty
separators `"episode_"` and `"."`. -/
def pySplit (s sep : String) : List String :=
  (splitOnFuel sep.data (s.data.length + 1) s.data []).map String.mk

/-- Value of a Python decimal digit run that may contain single underscores
between digits, as accepted by `int(...)`: non-empty, first and last
characters are digits, every character is a digit or `_`, and no two
underscores are adjacent. `none` models the `ValueError` raised otherwise. -/
def pyDigitsVal (cs : List Char) : Option Nat :=
  let ok := !cs.isEmpty
    && (match cs.head? with | some c => c.isDigit | none => false)
    && (match cs.getLast? with | some c => c.isDigit | none => false)
    && cs.all (fun c => c.isDigit || c == '_')
    && (cs.zip cs.tail).all (fun p => !(p.1 == '_' && p.2 == '_'))
  if ok then
    some ((cs.filter (fun c => c != '_')).foldl (fun n c => 10 * n + (c.toNat - 48)) 0)
  else
    none

/-- Leading and trailing whitespace removal, as `int(...)` performs before
parsing. -/
def stripWS (cs : List Char) : List Char :=
  ((cs.dropWhile Char.isWhitespace).reverse.dropWhile Char.isWhitespace).reverse

/-- Python `int(s)` on an ASCII string: optional surrounding whitespace, an
optional sign, then a digit run. `none` models the raised `ValueError`. -/
def pyInt (s : String) : Option Int :=
  match stripWS s.data with
  | '+' :: rest => (pyDigitsVal rest).map (fun n => (n : Int))
  | '-' :: rest => (pyDigitsVal rest).map (fun n => -(n : Int))
  | rest => (pyDigitsVal rest).map (fun n => (n : Int))

/-- Decimal digits of `n`, most significant first, by fuelled division. -/
def natDigitsAux : Nat → Nat → List Char
  | 0, _ => []
  | fuel + 1, n =>
    if n = 0 then []
    else
      natDigitsAux fuel (n / 10) ++
        [match n % 10 with
         | 0 => '0' | 1 => '1' | 2 => '2' | 3 => '3' | 4 => '4'
         | 5 => '5' | 6 => '6' | 7 => '7' | 8 => '8' | _ => '9']

/-- Decimal rendering of a natural number, as Python `str`. -/
def natToStr (n : Nat) : String :=
  if n = 0 then "0" else ⟨natDigitsAux (n + 1) n⟩

/-- Decimal rendering of an integer, as Python `str`. -/
def intToStr (i : Int) : String :=
  if i < 0 then "-" ++ natToStr (-i).toNat else natToStr i.toNat

/-- Left zero-padding to width `w`, as in a Python `0wd` format field. -/
def padZeros (w : Nat) (s : String) : String :=
  ⟨List.replicate (w - s.length) '0' ++ s.data⟩

/-- Python `f"{idx:06d}"`: a negative value carries its sign inside the
6-character field. -/
def pyFormat06 (i : Int) : String :=
  if i < 0 then "-" ++ padZeros 5 (natToStr (-i).toNat) else padZeros 6 (natToStr i.toNat)

/-- The episode marker substring `f"episode_{idx:06d}"` used by
`list_episodes` (line 88) and `delete_episodes` (line 116). -/
def marker (idx : Int) : String := "episode_" ++ pyFormat06 idx

/-- Python `repr` of a list of ints, as an f-string renders
`{episode_indices}`. -/
def pyReprIntList (l : List Int) : String :=
  "[" ++ String.intercalate ", " (l.map intToStr) ++ "]"

/-- The hardcoded destination repository (line 8). -/
def REPO_ID : String := "argus-systems/pickup-carrot-openpi"

/-- A loaded dataset as `merge_datasets` observes it: a column/type schema
(`features`) and the ordered rows (`len(ds)` is `rows.length`). -/
structure PyDataset where
  features : List (String × String)
  rows : List (List String)
deriving DecidableEq

/-- `datasets.concatenate_datasets`: row-order-preserving concatenation;
the schema is the (shared) schema of the first argument. -/
def concatenateDatasets (ds : List PyDataset) : PyDataset :=
  { features := ((ds.head?).map PyDataset.features).getD []
    rows := (ds.map PyDataset.rows).foldr (· ++ ·) [] }

/-- One observable step of an operation: an interactive confirmation
request (`input(...)`), a printed line, or a Remote Dataset Service call. -/
inductive Event where
  | prompt (msg : String)
  | output (msg : String)
  | apiDeleteTag (tag : String)
  | apiDeleteFile (path : String) (commitMessage : String)
  | apiConcat
  | apiPush (repo : String) (ds : PyDataset) (commitMessage : String)
deriving DecidableEq

/-- Paths of the `delete_file` calls a trace performs, in order. -/
def deletesOf : List Event → List String
  | [] => []
  | Event.apiDeleteFile p _ :: rest => p :: deletesOf rest
  | _ :: rest => deletesOf rest

/-- Messages of the confirmation prompts a trace issues, in order. -/
def promptsOf : List Event → List String
  | [] => []
  | Event.prompt m :: rest => m :: promptsOf rest
  | _ :: rest => promptsOf rest

/-- Destination and payload of every `push_to_hub` call in a trace. -/
def pushesOf : List Event → List (String × PyDataset)
  | [] => []
  | Event.apiPush r d _ :: rest => (r, d) :: pushesOf rest
  | _ :: rest => pushesOf rest

/-- Number of `concatenate_datasets` calls in a trace. -/
def concatsOf : List Event → Nat
  | [] => 0
  | Event.apiConcat :: rest => concatsOf rest + 1
  | _ :: rest => concatsOf rest

/-- Printed lines of a trace, in order. -/
def outputsOf : List Event → List String
  | [] => []
  | Event.output m :: rest => m :: outputsOf rest
  | _ :: rest => outputsOf rest

/-- `delete_tag` (lines 51-64): prompt; on a response whose lowercase form is
`yes`, delete the tag and report; otherwise fall through, printing nothing. -/
def deleteTag (tagName : String) (confirm : String) : List Event :=
  Event.prompt ("Delete tag \x27" ++ tagName ++ "\x27? (yes/no): ") ::
  if pyLower confirm = "yes" then
    [Event.apiDeleteTag tagName, Event.output ("✓ Deleted tag: " ++ tagName)]
  else
    []

/-- The episode-number extraction of `list_episodes` line 83:
`int(f.split('episode_')[1].split('.')[0])`; `none` models the raised
`IndexError`/`ValueError`. -/
def extractEpisode (f : String) : Option Int :=
  match (pySplit f "episode_").get? 1 with
  | none => none
  | some tail0 =>
    match (pySplit tail0 ".").get? 0 with
    | none => none
    | some numStr => pyInt numStr

/-- A Python list comprehension over `g` that may raise: `none` as soon as
one element fails, otherwise the list of results in order. -/
def mapOpt {α β : Type} (g : α → Option β) : List α → Option (List β)
  | [] => some []
  | a :: as =>
    match g a with
    | none => none
    | some b =>
      match mapOpt g as with
      | none => none
      | some bs => some (b :: bs)

/-- Python `sorted(set(l))` on integers: the distinct values in ascending
order (insertion sort over `dedup`, chosen because it evaluates by
structural recursion; any sort yields the same list here). -/
def pySortedSet (l : List Int) : List Int := List.insertionSort (· ≤ ·) l.dedup

/-- `list_episodes` (lines 66-91) over the file listing the hub returns:
filters to paths ending in `.parquet` that contain `episode_`, extracts each
embedded episode number, deduplicates and sorts; on success returns the
episode numbers together with the lines printed (header, then one line per
episode counting all related files). `none` models the exception raised by
a failing extraction, which occurs before any episode line is printed. -/
def listEpisodes (files : List String) : Option (List Int × List Event) :=
  let parquetFiles := files.filter (fun f => strEndsWith f ".parquet" && strContains f "episode_")
  match mapOpt extractEpisode parquetFiles with
  | none => none
  | some nums =>
    let episodeNumbers := pySortedSet nums
    some (episodeNumbers,
      Event.output ("\nFound " ++ natToStr episodeNumbers.length ++ " episodes:") ::
        episodeNumbers.map (fun ep =>
          let relatedFiles := files.filter (fun f => strContains f (marker ep))
          Event.output ("  Episode " ++ intToStr ep ++ ": " ++ natToStr relatedFiles.length ++
            " files (1 parquet + " ++ intToStr ((relatedFiles.length : Int) - 1) ++ " videos)")))

/-- The selection loop of `delete_episodes` (lines 114-118): for each index in
order, append every path of the listing that contains its marker. -/
def filesToDelete : List Int → List String → List String
  | [], _ => []
  | idx :: rest, allFiles =>
    allFiles.filter (fun f => strContains f (marker idx)) ++ filesToDelete rest allFiles

/-- The grouped display loop of `delete_episodes` (lines 126-131): per index,
a header line and one line per selected file containing its marker. -/
def breakdown (filesToDel : List String) : List Int → List Event
  | [] => []
  | idx :: rest =>
    let episodeFiles := filesToDel.filter (fun f => strContains f (marker idx))
    Event.output ("\n  Episode " ++ intToStr idx ++ " (" ++ natToStr episodeFiles.length ++ " files):") ::
    episodeFiles.map (fun f => Event.output ("    - " ++ f)) ++ breakdown filesToDel rest

/-- The deletion loop of `delete_episodes` (lines 136-146): every file is
attempted in order; `deleteErr` is the environment's per-file outcome (`none`
success, `some e` a raised exception), and a failure is caught and reported
without stopping the loop. -/
def deleteLoop (commitMessage : String) (deleteErr : String → Option String) : List String → List Event
  | [] => []
  | f :: rest =>
    Event.apiDeleteFile f commitMessage ::
    (match deleteErr f with
     | none => Event.output ("✓ Deleted: " ++ f)
     | some e => Event.output ("✗ Failed to delete " ++ f ++ ": " ++ e)) ::
    deleteLoop commitMessage deleteErr rest

/-- `delete_episodes` (lines 93-150) over the file listing the hub returns,
the operator's confirmation response, and the per-file deletion outcomes. -/
def deleteEpisodes (episodeIndices : List Int) (allFiles : List String)
    (confirm : String) (deleteErr : String → Option String) : List Event :=
  let filesToDel := filesToDelete episodeIndices allFiles
  if filesToDel.isEmpty then
    [Event.output ("⚠ No files found for episodes: " ++ pyReprIntList episodeIndices)]
  else
    Event.output ("\nFiles to be deleted for " ++ natToStr episodeIndices.length ++ " episode(s):") ::
    breakdown filesToDel episodeIndices ++
    Event.prompt ("\nDelete " ++ natToStr filesToDel.length ++ " total files? (yes/no): ") ::
    if pyLower confirm = "yes" then
      Event.output "\nDeleting files..." ::
      deleteLoop ("Delete episodes " ++ pyReprIntList episodeIndices) deleteErr filesToDel ++
      [Event.output ("\n✓ Successfully deleted episodes " ++ pyReprIntList episodeIndices)]
    else
      [Event.output "Cancelled."]

/-- Rendering of a feature schema in the diagnostic dump of
`merge_datasets`; the exact text of the dump is not load-bearing. -/
def featuresStr (fs : List (String × String)) : String :=
  String.intercalate ", " (fs.map (fun p => p.1 ++ ": " ++ p.2))

/-- `merge_datasets` (lines 152-258) over the environment: `load` is the
outcome of `load_dataset` per repository id (`Except.error` a raised
exception), `confirm` the operator's response, `pushErr` the outcome of
`push_to_hub`. Concatenation of schema-equal datasets is modelled as the
total function `concatenateDatasets`, so the `except` arm around it (lines
238-240) collapses to its success branch. -/
def mergeDatasets (sourceRepoId : String) (targetRepoArg outputRepoArg : Option String)
    (load : String → Except String PyDataset) (confirm : String)
    (pushErr : Option String) : List Event :=
  let targetRepoId := targetRepoArg.getD REPO_ID
  let outputRepoId := outputRepoArg.getD targetRepoId
  [Event.output "\n=== Merging Datasets ===",
   Event.output ("Source: " ++ sourceRepoId),
   Event.output ("Target: " ++ targetRepoId),
   Event.output ("Output: " ++ outputRepoId),
   Event.output "",
   Event.output ("Loading target dataset: " ++ targetRepoId ++ "...")] ++
  match load targetRepoId with
  | Except.error e => [Event.output ("✗ Error loading target dataset: " ++ e)]
  | Except.ok targetDataset =>
    [Event.output ("✓ Loaded target: " ++ natToStr targetDataset.rows.length ++ " examples"),
     Event.output ("\nLoading source dataset: " ++ sourceRepoId ++ "...")] ++
    match load sourceRepoId with
    | Except.error e => [Event.output ("✗ Error loading source dataset: " ++ e)]
    | Except.ok sourceDataset =>
      Event.output "\nValidating dataset schemas..." ::
      if targetDataset.features ≠ sourceDataset.features then
        [Event.output "✗ Error: Dataset schemas don\x27t match!",
         Event.output ("\nTarget features: " ++ featuresStr targetDataset.features),
         Event.output ("\nSource features: " ++ featuresStr sourceDataset.features),
         Event.output "\nDatasets must have identical columns and types to merge."]
      else
        Event.output "✓ Schemas match" ::
        Event.output "\nMerge plan:" ::
        Event.output ("  Target episodes: " ++ natToStr targetDataset.rows.length ++ " examples") ::
        Event.output ("  Source episodes: " ++ natToStr sourceDataset.rows.length ++ " examples") ::
        Event.output ("  Total after merge: " ++
          natToStr (targetDataset.rows.length + sourceDataset.rows.length) ++ " examples") ::
        Event.output ("\nMerged dataset will be pushed to: " ++ outputRepoId) ::
        (if outputRepoId = targetRepoId then
          Event.output "⚠ Warning: This will UPDATE the target dataset"
         else
          Event.output "✓ Original datasets will remain unchanged") ::
        Event.prompt "\nProceed with merge? (yes/no): " ::
        if pyLower confirm ≠ "yes" then
          [Event.output "Cancelled."]
        else
          let merged := concatenateDatasets [targetDataset, sourceDataset]
          Event.output "\nMerging datasets..." ::
          Event.apiConcat ::
          Event.output ("✓ Successfully merged: " ++ natToStr merged.rows.length ++ " total examples") ::
          Event.output ("\nPushing merged dataset to " ++ outputRepoId ++ "...") ::
          Event.apiPush outputRepoId merged ("Merge " ++ sourceRepoId ++ " into " ++ targetRepoId) ::
          match pushErr with
          | some e => [Event.output ("✗ Error pushing to hub: " ++ e)]
          | none =>
            [Event.output ("✓ Successfully pushed to " ++ outputRepoId),
             Event.output "\n=== Merge Complete ===",
             Event.output ("✓ Merged " ++ natToStr sourceDataset.rows.length ++ " examples from " ++ sourceRepoId),
             Event.output ("✓ Combined with " ++ natToStr targetDataset.rows.length ++ " examples from " ++ targetRepoId),
             Event.output ("✓ Total: " ++ natToStr merged.rows.length ++ " examples in " ++ outputRepoId),
             Event.output ("\nView your merged dataset at: https://huggingface.co/datasets/" ++ outputRepoId)]

theorem deletesOf_append (a b : List Event) :
    deletesOf (a ++ b) = deletesOf a ++ deletesOf b := by
  induction a with
  | nil => rfl
  | cons e rest ih => cases e <;> simp [deletesOf, ih]

theorem promptsOf_append (a b : List Event) :
    promptsOf (a ++ b) = promptsOf a ++ promptsOf b := by
  induction a with
  | nil => rfl
  | cons e rest ih => cases e <;> simp [promptsOf, ih]

theorem pushesOf_append (a b : List Event) :
    pushesOf (a ++ b) = pushesOf a ++ pushesOf b := by
  induction a with
  | nil => rfl
  | cons e rest ih => cases e <;> simp [pushesOf, ih]

theorem concatsOf_append (a b : List Event) :
    concatsOf (a ++ b) = concatsOf a + concatsOf b := by
  induction a with
  | nil => simp [concatsOf]
  | cons e rest ih => cases e <;> simp [concatsOf, ih] <;> omega

theorem deletesOf_output_map {α : Type} (g : α → String) (l : List α) :
    deletesOf (l.map (fun x => Event.output (g x))) = [] := by
  induction l with
  | nil => rfl
  | cons x rest ih => simp [deletesOf, ih]

theorem deletesOf_breakdown (fd : List String) (idxs : List Int) :
    deletesOf (breakdown fd idxs) = [] := by
  induction idxs with
  | nil => rfl
  | cons i rest ih =>
    simp [breakdown, deletesOf, deletesOf_append, deletesOf_output_map, ih]

theorem deletesOf_deleteLoop (m : String) (err : String → Option String)
    (fs : List String) : deletesOf (deleteLoop m err fs) = fs := by
  induction fs with
  | nil => rfl
  | cons f rest ih => cases herr : err f <;> simp [deleteLoop, herr, deletesOf, ih]

theorem deletesOf_deleteEpisodes (indices : List Int) (files : List String)
    (confirm : String) (err : String → Option String) :
    deletesOf (deleteEpisodes indices files confirm err)
      = if pyLower confirm = "yes" then filesToDelete indices files else [] := by
  rw [deleteEpisodes]
  by_cases hE : (filesToDelete indices files).isEmpty
  · rw [if_pos hE]
    rw [List.isEmpty_iff] at hE
    simp [deletesOf, hE]
  · rw [if_neg hE]
    by_cases hc : pyLower confirm = "yes"
    · rw [if_pos hc, if_pos hc]
      simp [deletesOf, deletesOf_append, deletesOf_breakdown, deletesOf_deleteLoop]
    · rw [if_neg hc, if_neg hc]
      simp [deletesOf, deletesOf_append, deletesOf_breakdown]

/-- C2: for any file listing, `delete-episodes([3])` selects exactly the paths
containing the full zero-padded marker `episode_000003`; on the listing
`["episode_000003.parquet", "episode_000003_cam1.mp4", "episode_000013.parquet"]`
it selects exactly the first two paths (index 13's marker does not match). -/
theorem delete_episodes_selects_exact_marker :
    (∀ files : List String, ∀ p,
      p ∈ filesToDelete [3] files ↔ p ∈ files ∧ strContains p "episode_000003" = true) ∧
    filesToDelete [3]
        ["episode_000003.parquet", "episode_000003_cam1.mp4", "episode_000013.parquet"]
      = ["episode_000003.parquet", "episode_000003_cam1.mp4"] := by
  constructor
  · intro files p
    rw [show ("episode_000003" : String) = marker 3 from by decide]
    simp [filesToDelete, List.mem_filter]
  · decide

/-- C10: `list_episodes` is partial: on the listing `["episode_abc.parquet"]`,
whose single path ends in `.parquet` and contains `episode_` but carries no
decimal numeral between the marker and the first dot, the `int(...)`
extraction raises (modelled by `none`), so the operation fails before any
episode line is printed (the extraction on line 83 of the source precedes
every episode print on lines 85-89). -/
theorem list_episodes_raises_on_nonnumeric_marker :
    strEndsWith "episode_abc.parquet" ".parquet" = true ∧
    strContains "episode_abc.parquet" "episode_" = true ∧
    listEpisodes ["episode_abc.parquet"] = none := by decide

/-- C4 counterexample: with the duplicated index sequence `[3, 3]` the
selection is a concatenation, not a union: the single matching path appears
twice and, after a `yes` confirmation, its deletion is attempted twice. -/
theorem delete_episodes_duplicate_selection_cex :
    filesToDelete [3, 3] ["episode_000003.parquet"]
      = ["episode_000003.parquet", "episode_000003.parquet"] ∧
    (deletesOf (deleteEpisodes [3, 3] ["episode_000003.parquet"] "yes" (fun _ => none))).count
      "episode_000003.parquet" = 2 := by decide

/-- C6 counterexample: the confirmation response `YES` differs from `yes`,
yet `delete_episodes` lowercases it and performs the delete call. -/
theorem delete_episodes_uppercase_yes_deletes_cex :
    ("YES" = "yes" → False) ∧
    deletesOf (deleteEpisodes [3] ["episode_000003.parquet"] "YES" (fun _ => none))
      = ["episode_000003.parquet"] := by decide

/-- C5 counterexample: `delete_tag` with the declining response `no` issues
the prompt and then does nothing at all; in particular no `Cancelled.` line
is printed, contradicting the claim that every declining operation reports
`Cancelled.`. -/
theorem delete_tag_decline_silent_cex :
    ("no" = "yes" → False) ∧
    deleteTag "v1.0" "no" = [Event.prompt "Delete tag \x27v1.0\x27? (yes/no): "] ∧
    (Event.output "Cancelled." ∈ deleteTag "v1.0" "no" → False) := by decide

theorem failMsg_mem_deleteLoop (m : String) (err : String → Option String)
    (fs : List String) (p e : String) (hp : p ∈ fs) (he : err p = some e) :
    Event.output ("✗ Failed to delete " ++ p ++ ": " ++ e) ∈ deleteLoop m err fs := by
  induction fs with
  | nil => cases hp
  | cons f rest ih =>
    rcases List.mem_cons.mp hp with h | h
    · subst h
      rw [deleteLoop, he]
      exact List.mem_cons_of_mem _ (List.mem_cons_self _ _)
    · rw [deleteLoop]
      exact List.mem_cons_of_mem _ (List.mem_cons_of_mem _ (ih h))

/-- C6 (amended): a confirmation response whose lowercase form is not `yes`
leads to zero `delete_file` calls. -/
theorem delete_episodes_decline_zero_deletes (indices : List Int)
    (files : List String) (confirm : String) (err : String → Option String)
    (h : pyLower confirm ≠ "yes") :
    deletesOf (deleteEpisodes indices files confirm err) = [] := by
  rw [deletesOf_deleteEpisodes, if_neg h]

/-- C6 witness: declining with `no` deletes nothing. -/
theorem delete_episodes_decline_zero_deletes_w :
    deletesOf (deleteEpisodes [3] ["episode_000003.parquet"] "no" (fun _ => none)) = [] :=
  delete_episodes_decline_zero_deletes _ _ _ _ (by decide)

/-- C7: after an affirmative confirmation every selected file's deletion is
attempted, in order, whatever the per-file outcomes `err` are (so one
failure blocks no other deletion), and each failure is caught and reported
as a printed line. -/
theorem delete_episodes_failure_isolated (indices : List Int)
    (files : List String) (confirm : String) (err : String → Option String)
    (hc : pyLower confirm = "yes") :
    deletesOf (deleteEpisodes indices files confirm err) = filesToDelete indices files ∧
    ∀ p e, p ∈ filesToDelete indices files → err p = some e →
      Event.output ("✗ Failed to delete " ++ p ++ ": " ++ e)
        ∈ deleteEpisodes indices files confirm err := by
  constructor
  · rw [deletesOf_deleteEpisodes, if_pos hc]
  · intro p e hp he
    have hne : ¬(filesToDelete indices files).isEmpty = true := by
      rw [List.isEmpty_iff]
      intro h0
      rw [h0] at hp
      cases hp
    have hmem := failMsg_mem_deleteLoop ("Delete episodes " ++ pyReprIntList indices) err
      (filesToDelete indices files) p e hp he
    rw [deleteEpisodes, if_neg hne, if_pos hc]
    simp only [List.mem_cons, List.mem_append]
    tauto

/-- C7 witness: three selected files, the middle one failing; all three
deletions are attempted and the failure is reported. -/
theorem delete_episodes_failure_isolated_w :
    deletesOf (deleteEpisodes [1]
        ["episode_000001.parquet", "episode_000001_a.mp4", "episode_000001_b.mp4"] "yes"
        (fun p => if p = "episode_000001_a.mp4" then some "boom" else none))
      = filesToDelete [1]
          ["episode_000001.parquet", "episode_000001_a.mp4", "episode_000001_b.mp4"] ∧
    Event.output ("✗ Failed to delete " ++ "episode_000001_a.mp4" ++ ": " ++ "boom")
      ∈ deleteEpisodes [1]
          ["episode_000001.parquet", "episode_000001_a.mp4", "episode_000001_b.mp4"] "yes"
          (fun p => if p = "episode_000001_a.mp4" then some "boom" else none) :=
  ⟨(delete_episodes_failure_isolated _ _ _ _ (by decide)).1,
   (delete_episodes_failure_isolated _ _ _ _ (by decide)).2
      "episode_000001_a.mp4" "boom" (by decide) (by decide)⟩

theorem filesToDelete_eq_nil (indices : List Int) (files : List String)
    (h : ∀ idx ∈ indices, ∀ p ∈ files, strContains p (marker idx) = false) :
    filesToDelete indices files = [] := by
  induction indices with
  | nil => rfl
  | cons i rest ih =>
    rw [filesToDelete, List.append_eq_nil]
    constructor
    · rw [List.filter_eq_nil_iff]
      intro p hp
      simp [h i (List.mem_cons_self i rest) p hp]
    · exact ih (fun idx hidx p hp => h idx (List.mem_cons_of_mem _ hidx) p hp)

/-- C8: when no path of the listing contains any requested index's marker
(in particular for the empty index list), the selection is empty and the
whole trace is the single warning line: no prompt, no delete call. -/
theorem delete_episodes_no_match_warns (indices : List Int) (files : List String)
    (confirm : String) (err : String → Option String)
    (h : ∀ idx ∈ indices, ∀ p ∈ files, strContains p (marker idx) = false) :
    filesToDelete indices files = [] ∧
    deleteEpisodes indices files confirm err
      = [Event.output ("⚠ No files found for episodes: " ++ pyReprIntList indices)] ∧
    promptsOf (deleteEpisodes indices files confirm err) = [] ∧
    deletesOf (deleteEpisodes indices files confirm err) = [] := by
  have h0 := filesToDelete_eq_nil indices files h
  have htr : deleteEpisodes indices files confirm err
      = [Event.output ("⚠ No files found for episodes: " ++ pyReprIntList indices)] := by
    rw [deleteEpisodes]
    simp [h0]
  refine ⟨h0, htr, ?_, ?_⟩ <;> rw [htr] <;> rfl

/-- C8 witness: requesting episode 3 against a listing with no matching path
yields the bare warning trace. -/
theorem delete_episodes_no_match_warns_w :
    filesToDelete [3] ["notes.txt"] = [] ∧
    deleteEpisodes [3] ["notes.txt"] "yes" (fun _ => none)
      = [Event.output ("⚠ No files found for episodes: " ++ pyReprIntList [3])] ∧
    promptsOf (deleteEpisodes [3] ["notes.txt"] "yes" (fun _ => none)) = [] ∧
    deletesOf (deleteEpisodes [3] ["notes.txt"] "yes" (fun _ => none)) = [] :=
  delete_episodes_no_match_warns [3] ["notes.txt"] "yes" (fun _ => none) (by decide)

theorem filesToDelete_mem (indices : List Int) (files : List String) (p : String) :
    p ∈ filesToDelete indices files ↔
      ∃ i ∈ indices, p ∈ files ∧ strContains p (marker i) = true := by
  induction indices with
  | nil => simp [filesToDelete]
  | cons i rest ih =>
    simp only [filesToDelete, List.mem_append, List.mem_filter, ih, List.mem_cons]
    constructor
    · rintro (⟨hp, hm⟩ | ⟨j, hj, hp, hm⟩)
      · exact ⟨i, Or.inl rfl, hp, hm⟩
      · exact ⟨j, Or.inr hj, hp, hm⟩
    · rintro ⟨j, hj | hj, hp, hm⟩
      · subst hj; exact Or.inl ⟨hp, hm⟩
      · exact Or.inr ⟨j, hj, hp, hm⟩

theorem filesToDelete_nodup (files : List String) (hf : files.Nodup) :
    ∀ indices : List Int, indices.Nodup →
      (∀ p ∈ files, ∀ i ∈ indices, ∀ j ∈ indices,
        strContains p (marker i) = true → strContains p (marker j) = true → i = j) →
      (filesToDelete indices files).Nodup := by
  intro indices
  induction indices with
  | nil => intro _ _; exact List.nodup_nil
  | cons i rest ih =>
    intro hi hdisj
    rw [filesToDelete, List.nodup_append]
    obtain ⟨hinotin, hrest⟩ := List.nodup_cons.mp hi
    refine ⟨hf.filter _, ?_, ?_⟩
    · exact ih hrest (fun p hp a ha b hb => hdisj p hp a (List.mem_cons_of_mem _ ha)
        b (List.mem_cons_of_mem _ hb))
    · intro x hx hx2
      rw [List.mem_filter] at hx
      rw [filesToDelete_mem] at hx2
      obtain ⟨j, hj, _, hcj⟩ := hx2
      have hij : i = j := hdisj x hx.1 i (List.mem_cons_self _ _)
        j (List.mem_cons_of_mem _ hj) hx.2 hcj
      exact hinotin (hij ▸ hj)

/-- C4 (amended): the selection of `delete_episodes` is the concatenation of
the per-index matching lists; when the requested indices are pairwise
distinct, the listing has no duplicate paths, and no path contains the
markers of two different requested indices, the selection has no duplicate
path and each targeted file's deletion is attempted at most once (for any
confirmation response and any per-file outcomes). -/
theorem delete_episodes_selection_nodup (indices : List Int) (files : List String)
    (confirm : String) (err : String → Option String)
    (hf : files.Nodup) (hi : indices.Nodup)
    (hdisj : ∀ p ∈ files, ∀ i ∈ indices, ∀ j ∈ indices,
      strContains p (marker i) = true → strContains p (marker j) = true → i = j) :
    (filesToDelete indices files).Nodup ∧
    (deletesOf (deleteEpisodes indices files confirm err)).Nodup := by
  have hsel := filesToDelete_nodup files hf indices hi hdisj
  refine ⟨hsel, ?_⟩
  rw [deletesOf_deleteEpisodes]
  by_cases hc : pyLower confirm = "yes"
  · rw [if_pos hc]; exact hsel
  · rw [if_neg hc]; exact List.nodup_nil

/-- C4 witness: two distinct indices over a clean listing select each
matching file once and delete it once. -/
theorem delete_episodes_selection_nodup_w :
    (filesToDelete [1, 3] ["episode_000001.parquet", "episode_000003.parquet"]).Nodup ∧
    (deletesOf (deleteEpisodes [1, 3] ["episode_000001.parquet", "episode_000003.parquet"]
        "yes" (fun _ => none))).Nodup :=
  delete_episodes_selection_nodup [1, 3] ["episode_000001.parquet", "episode_000003.parquet"]
    "yes" (fun _ => none) (by decide) (by decide) (by decide)

theorem mapOpt_mem {α β : Type} {g : α → Option β} :
    ∀ {l : List α} {ys : List β}, mapOpt g l = some ys →
      ∀ y ∈ ys, ∃ x ∈ l, g x = some y := by
  intro l
  induction l with
  | nil =>
    intro ys h y hy
    rw [mapOpt] at h
    injection h with h'
    subst h'
    cases hy
  | cons a as ih =>
    intro ys h y hy
    rw [mapOpt] at h
    cases hga : g a with
    | none => rw [hga] at h; cases h
    | some b =>
      rw [hga] at h
      cases hmas : mapOpt g as with
      | none => rw [hmas] at h; cases h
      | some bs =>
        rw [hmas] at h
        injection h with h'
        subst h'
        rcases List.mem_cons.mp hy with hy | hy
        · subst hy; exact ⟨a, List.mem_cons_self _ _, hga⟩
        · obtain ⟨x, hx, hgx⟩ := ih hmas y hy
          exact ⟨x, List.mem_cons_of_mem _ hx, hgx⟩

/-- C1: whenever `list_episodes` returns (does not raise), the returned
episode indices are strictly ascending with no duplicates, and every one of
them was extracted from a listed path that ends in `.parquet` and contains
the `episode_` marker. -/
theorem list_episodes_sorted_dedup_provenance (files : List String)
    (eps : List Int) (tr : List Event)
    (h : listEpisodes files = some (eps, tr)) :
    eps.Sorted (· < ·) ∧ eps.Nodup ∧
    ∀ n ∈ eps, ∃ f ∈ files, strEndsWith f ".parquet" = true ∧
      strContains f "episode_" = true ∧ extractEpisode f = some n := by
  simp only [listEpisodes] at h
  cases hm : mapOpt extractEpisode
      (files.filter fun f => strEndsWith f ".parquet" && strContains f "episode_") with
  | none => rw [hm] at h; cases h
  | some nums =>
    rw [hm] at h
    simp only [Option.some.injEq, Prod.mk.injEq] at h
    obtain ⟨heps, -⟩ := h
    subst heps
    have hnd : (pySortedSet nums).Nodup :=
      (List.perm_insertionSort _ _).nodup_iff.mpr (List.nodup_dedup nums)
    refine ⟨(List.sorted_insertionSort _ _).lt_of_le hnd, hnd, ?_⟩
    intro n hn
    rw [pySortedSet] at hn
    rw [(List.perm_insertionSort _ _).mem_iff, List.mem_dedup] at hn
    obtain ⟨f, hf, hfe⟩ := mapOpt_mem hm n hn
    rw [List.mem_filter] at hf
    obtain ⟨hf1, hf2⟩ := hf
    rw [Bool.and_eq_true] at hf2
    exact ⟨f, hf1, hf2.1, hf2.2, hfe⟩

/-- C1 witness: on a mixed listing the returned indices are `[1, 3]`,
sorted, duplicate-free, and each extracted from a matching parquet path. -/
theorem list_episodes_sorted_dedup_provenance_w :
    ([1, 3] : List Int).Sorted (· < ·) ∧ ([1, 3] : List Int).Nodup ∧
    ∀ n ∈ ([1, 3] : List Int),
      ∃ f ∈ ["episode_000003.parquet", "other.txt", "episode_000001.parquet"],
        strEndsWith f ".parquet" = true ∧ strContains f "episode_" = true ∧
        extractEpisode f = some n :=
  list_episodes_sorted_dedup_provenance
    ["episode_000003.parquet", "other.txt", "episode_000001.parquet"] [1, 3]
    [Event.output "\nFound 2 episodes:",
     Event.output "  Episode 1: 1 files (1 parquet + 0 videos)",
     Event.output "  Episode 3: 1 files (1 parquet + 0 videos)"]
    (by decide)

/-- C3: when both datasets load but their feature schemas differ,
`merge_datasets` returns before asking for confirmation and performs no
concatenation and no push. -/
theorem merge_schema_mismatch_aborts (src : String) (tgt out : Option String)
    (load : String → Except String PyDataset) (confirm : String)
    (pushErr : Option String) (t s : PyDataset)
    (ht : load (tgt.getD REPO_ID) = Except.ok t)
    (hs : load src = Except.ok s)
    (hne : t.features ≠ s.features) :
    promptsOf (mergeDatasets src tgt out load confirm pushErr) = [] ∧
    concatsOf (mergeDatasets src tgt out load confirm pushErr) = 0 ∧
    pushesOf (mergeDatasets src tgt out load confirm pushErr) = [] := by
  simp only [mergeDatasets]
  rw [ht, hs]
  simp only [if_pos hne]
  refine ⟨?_, ?_, ?_⟩ <;>
    simp [promptsOf, concatsOf, pushesOf, promptsOf_append, concatsOf_append, pushesOf_append]

/-- C3 witness: loading two concrete one-column datasets with different
column types aborts with no prompt, no concatenation and no push. -/
theorem merge_schema_mismatch_aborts_w :
    promptsOf (mergeDatasets "u/src" (some "u/tgt") none
      (fun r => if r = "u/tgt" then Except.ok ⟨[("c", "int64")], [["0"]]⟩
                else if r = "u/src" then Except.ok ⟨[("c", "float32")], [["1"]]⟩
                else Except.error "not found") "yes" none) = [] ∧
    concatsOf (mergeDatasets "u/src" (some "u/tgt") none
      (fun r => if r = "u/tgt" then Except.ok ⟨[("c", "int64")], [["0"]]⟩
                else if r = "u/src" then Except.ok ⟨[("c", "float32")], [["1"]]⟩
                else Except.error "not found") "yes" none) = 0 ∧
    pushesOf (mergeDatasets "u/src" (some "u/tgt") none
      (fun r => if r = "u/tgt" then Except.ok ⟨[("c", "int64")], [["0"]]⟩
                else if r = "u/src" then Except.ok ⟨[("c", "float32")], [["1"]]⟩
                else Except.error "not found") "yes" none) = [] :=
  merge_schema_mismatch_aborts "u/src" (some "u/tgt") none _ "yes" none
    ⟨[("c", "int64")], [["0"]]⟩ ⟨[("c", "float32")], [["1"]]⟩
    (by rfl) (by rfl) (by decide)

/-- C9: a confirmed merge of loaded, schema-equal datasets concatenates
target-then-source (target rows first), the merged row count is the sum of
the two row counts whatever output repository is chosen, and the merged
dataset is pushed exactly once, to the output repository, which defaults to
the target repository (itself defaulting to `REPO_ID`). -/
theorem merge_concatenates_target_then_source (src : String) (tgt out : Option String)
    (load : String → Except String PyDataset) (confirm : String)
    (pushErr : Option String) (t s : PyDataset)
    (ht : load (tgt.getD REPO_ID) = Except.ok t)
    (hs : load src = Except.ok s)
    (hfe : t.features = s.features)
    (hc : pyLower confirm = "yes") :
    (concatenateDatasets [t, s]).rows = t.rows ++ s.rows ∧
    (concatenateDatasets [t, s]).rows.length = t.rows.length + s.rows.length ∧
    pushesOf (mergeDatasets src tgt out load confirm pushErr)
      = [(out.getD (tgt.getD REPO_ID), concatenateDatasets [t, s])] := by
  have hrows : (concatenateDatasets [t, s]).rows = t.rows ++ s.rows := by
    simp [concatenateDatasets]
  refine ⟨hrows, by rw [hrows, List.length_append], ?_⟩
  have h1 : ¬(t.features ≠ s.features) := fun h => h hfe
  have h2 : ¬(pyLower confirm ≠ "yes") := fun h => h hc
  simp only [mergeDatasets]
  rw [ht, hs]
  simp only [if_neg h1, if_neg h2]
  by_cases hout : (out.getD (tgt.getD REPO_ID)) = tgt.getD REPO_ID
  · simp only [if_pos hout]
    cases pushErr <;> simp [pushesOf, pushesOf_append]
  · simp only [if_neg hout]
    cases pushErr <;> simp [pushesOf, pushesOf_append]

/-- C9 witness: merging two concrete schema-equal datasets into a fresh
output repository pushes their target-then-source concatenation there. -/
theorem merge_concatenates_target_then_source_w :
    (concatenateDatasets [⟨[("c", "int64")], [["0"], ["1"]]⟩, ⟨[("c", "int64")], [["2"]]⟩]).rows
      = ([["0"], ["1"]] : List (List String)) ++ [["2"]] ∧
    (concatenateDatasets [⟨[("c", "int64")], [["0"], ["1"]]⟩, ⟨[("c", "int64")], [["2"]]⟩]).rows.length
      = ([["0"], ["1"]] : List (List String)).length + ([["2"]] : List (List String)).length ∧
    pushesOf (mergeDatasets "u/src" (some "u/tgt") (some "u/new")
        (fun r => if r = "u/tgt" then Except.ok ⟨[("c", "int64")], [["0"], ["1"]]⟩
                  else if r = "u/src" then Except.ok ⟨[("c", "int64")], [["2"]]⟩
                  else Except.error "not found") "yes" none)
      = [((some "u/new").getD ((some "u/tgt").getD REPO_ID),
          concatenateDatasets [⟨[("c", "int64")], [["0"], ["1"]]⟩, ⟨[("c", "int64")], [["2"]]⟩])] :=
  merge_concatenates_target_then_source "u/src" (some "u/tgt") (some "u/new") _ "yes" none
    ⟨[("c", "int64")], [["0"], ["1"]]⟩ ⟨[("c", "int64")], [["2"]]⟩
    (by rfl) (by rfl) (by decide) (by decide)

/-- C5 (amended): a confirmation response whose lowercase form is not `yes`
declines the operation with no service call; `delete_episodes` (with a
non-empty selection) and `merge_datasets` (with loaded, schema-equal
datasets) report `Cancelled.`, while `delete_tag` prints nothing after the
prompt. -/
theorem confirm_decline_behavior (tagName : String) (indices : List Int)
    (files : List String) (err : String → Option String) (src : String)
    (tgt out : Option String) (load : String → Except String PyDataset)
    (pushErr : Option String) (t s : PyDataset) (confirm : String)
    (hc : pyLower confirm ≠ "yes")
    (hft : filesToDelete indices files ≠ [])
    (ht : load (tgt.getD REPO_ID) = Except.ok t)
    (hs : load src = Except.ok s)
    (hfe : t.features = s.features) :
    deleteTag tagName confirm
      = [Event.prompt ("Delete tag \x27" ++ tagName ++ "\x27? (yes/no): ")] ∧
    (Event.output "Cancelled." ∈ deleteEpisodes indices files confirm err ∧
      deletesOf (deleteEpisodes indices files confirm err) = []) ∧
    (Event.output "Cancelled." ∈ mergeDatasets src tgt out load confirm pushErr ∧
      concatsOf (mergeDatasets src tgt out load confirm pushErr) = 0 ∧
      pushesOf (mergeDatasets src tgt out load confirm pushErr) = []) := by
  refine ⟨?_, ⟨?_, ?_⟩, ?_, ?_, ?_⟩
  · rw [deleteTag, if_neg hc]
  · have hne : ¬(filesToDelete indices files).isEmpty = true := by
      rw [List.isEmpty_iff]; exact hft
    rw [deleteEpisodes, if_neg hne, if_neg hc]
    simp
  · rw [deletesOf_deleteEpisodes, if_neg hc]
  all_goals
    have h1 : ¬(t.features ≠ s.features) := fun h => h hfe
    simp only [mergeDatasets]
    rw [ht, hs]
    simp only [if_neg h1, if_pos hc]
    by_cases hout : (out.getD (tgt.getD REPO_ID)) = tgt.getD REPO_ID
  · simp only [if_pos hout]; simp
  · simp only [if_neg hout]; simp
  · simp only [if_pos hout]; simp [concatsOf, concatsOf_append]
  · simp only [if_neg hout]; simp [concatsOf, concatsOf_append]
  · simp only [if_pos hout]; simp [pushesOf, pushesOf_append]
  · simp only [if_neg hout]; simp [pushesOf, pushesOf_append]

/-- C5 witness: the response `No` declines all three operations, with
`Cancelled.` printed by episode deletion and merge but not by tag
deletion. -/
theorem confirm_decline_behavior_w :
    deleteTag "v1.0" "No" = [Event.prompt ("Delete tag \x27" ++ "v1.0" ++ "\x27? (yes/no): ")] ∧
    (Event.output "Cancelled."
        ∈ deleteEpisodes [3] ["episode_000003.parquet"] "No" (fun _ => none) ∧
      deletesOf (deleteEpisodes [3] ["episode_000003.parquet"] "No" (fun _ => none)) = []) ∧
    (Event.output "Cancelled." ∈ mergeDatasets "u/src" (some "u/tgt") none
        (fun r => if r = "u/tgt" then Except.ok ⟨[("c", "int64")], [["0"]]⟩
                  else if r = "u/src" then Except.ok ⟨[("c", "int64")], [["1"]]⟩
                  else Except.error "not found") "No" none ∧
      concatsOf (mergeDatasets "u/src" (some "u/tgt") none
        (fun r => if r = "u/tgt" then Except.ok ⟨[("c", "int64")], [["0"]]⟩
                  else if r = "u/src" then Except.ok ⟨[("c", "int64")], [["1"]]⟩
                  else Except.error "not found") "No" none) = 0 ∧
      pushesOf (mergeDatasets "u/src" (some "u/tgt") none
        (fun r => if r = "u/tgt" then Except.ok ⟨[("c", "int64")], [["0"]]⟩
                  else if r = "u/src" then Except.ok ⟨[("c", "int64")], [["1"]]⟩
                  else Except.error "not found") "No" none) = []) :=
  confirm_decline_behavior "v1.0" [3] ["episode_000003.parquet"] (fun _ => none)
    "u/src" (some "u/tgt") none _ none
    ⟨[("c", "int64")], [["0"]]⟩ ⟨[("c", "int64")], [["1"]]⟩ "No"
    (by decide) (by decide) (by rfl) (by rfl) (by decide)
